import Mathlib

/-!
Verification development for the VoiceOfHer SOS-alert backend
(`routes/sos.js`): phone normalization, alert creation with broadcast
notification fan-out, status transitions, contact-response recording,
and targeted emergency-contact notification.

Strings are modelled as Lean `String`/`List Char`; timestamps as `Nat`;
Mongo document ids as `Nat`; GPS coordinates as `Rat` (the handlers only
range-check them, never doing arithmetic).
-/

namespace VoiceOfHer

/-! ## Phone normalizer (`formatPhoneNumber`, sos.js lines 33-40) -/

/-- Whitespace characters removed by JavaScript `String.prototype.trim`
(ASCII subset; the inputs the routes handle contain no exotic Unicode
whitespace). -/
def isSpaceChar (c : Char) : Bool :=
  (c == ' ') || (c == '\t') || (c == '\n') || (c == '\r') || (c == '\x0b') || (c == '\x0c')

/-- JavaScript `phone.trim()`: drop whitespace from both ends. -/
def trimChars (l : List Char) : List Char :=
  List.rdropWhile isSpaceChar (List.dropWhile isSpaceChar l)

/-- Decimal digit test, `\d` in the source regexes. -/
def isDigitCh (c : Char) : Bool :=
  decide ('0' ≤ c) && decide (c ≤ '9')

/-- The character class `[6-9]` of the source regexes. -/
def isIndianStart (c : Char) : Bool :=
  decide ('6' ≤ c) && decide (c ≤ '9')

/-- The regex `/^[6-9]\d{9}$/`: exactly ten digits, the first in 6-9. -/
def matchMobile10 : List Char → Bool
  | [] => false
  | c :: rest => isIndianStart c && (rest.length == 9) && rest.all isDigitCh

/-- The regex `/^0[6-9]\d{9}$/`: a leading zero followed by ten digits,
the first of which is in 6-9. -/
def matchMobile0 : List Char → Bool
  | [] => false
  | c :: rest => (c == '0') && matchMobile10 rest

/-- Character-level translation of `formatPhoneNumber` (sos.js 33-40):
empty check (`!phone`), trim, leading `+` passthrough, the two Indian
mobile patterns with `+91` prefixing, otherwise the trimmed input. -/
def formatPhoneChars (l : List Char) : List Char :=
  if l.isEmpty then []
  else if (trimChars l).head? == some '+' then trimChars l
  else if matchMobile10 (trimChars l) then '+' :: '9' :: '1' :: trimChars l
  else if matchMobile0 (trimChars l) then '+' :: '9' :: '1' :: (trimChars l).tail
  else trimChars l

/-- `formatPhoneNumber` of sos.js, on `String`. -/
def formatPhoneNumber (s : String) : String :=
  String.mk (formatPhoneChars s.data)

/-! ### Spec-side normalizer (for claim C7's rule-order refinement) -/

/-- Spec rule 4's matcher, written from the spec's words: "matches exactly
10 digits starting with a digit 6-9". -/
def specTenDigit (t : List Char) : Bool :=
  (t.length == 10) && t.all isDigitCh &&
    (match t.head? with | some c => isIndianStart c | none => false)

/-- Spec rule 5's matcher, written from the spec's words: "an 11-digit
string of a leading 0 followed by 10 digits starting with 6-9". -/
def specZeroEleven (t : List Char) : Bool :=
  (t.length == 11) && (t.head? == some '0') && t.tail.all isDigitCh &&
    (match t.tail.head? with | some c => isIndianStart c | none => false)

/-- The phone normalizer as the specification words it (§4.1), rules
applied in order, first match wins: empty input, trim, `+` passthrough,
ten-digit mobile, zero-led eleven-digit mobile, passthrough. -/
def specNormalize (s : String) : String :=
  if s = "" then ""
  else if (trimChars s.data).head? == some '+' then String.mk (trimChars s.data)
  else if specTenDigit (trimChars s.data) then "+91" ++ String.mk (trimChars s.data)
  else if specZeroEleven (trimChars s.data) then
    "+91" ++ String.mk ((trimChars s.data).drop 1)
  else String.mk (trimChars s.data)

/-! ## Data model (SOS alert documents and notification ledger) -/

/-- Alert lifecycle status, the `status` enum of the SOS schema. -/
inductive AlertStatus where
  | active
  | resolved
  | false_alarm
deriving DecidableEq, Repr

/-- Responses a notified contact can record (`pending` is the default the
fan-out writes; the contact-response validator accepts the other three). -/
inductive Response where
  | pending
  | acknowledged
  | responding
  | unreachable
deriving DecidableEq, Repr

/-- Per-recipient delivery classification of the fan-out. -/
inductive NotifStatus where
  | sent
  | logged
  | failed
deriving DecidableEq, Repr

/-- The `emergencyType` enum of the create-alert validator (sos.js 26-29). -/
inductive EmergencyType where
  | harassment
  | assault
  | medical
  | accident
  | other
deriving DecidableEq, Repr

/-- The stored creator reference of an alert: Mongoose keeps either the raw
ObjectId or, after `populate('userId')`, the expanded user document. The
notify-contacts handler (sos.js 359) must cope with both shapes. -/
inductive UserRef where
  | raw (id : Nat)
  | populated (id : Nat) (name : String) (phone : String)
deriving DecidableEq, Repr

/-- The identity extracted from a stored creator reference, translating
`alert.userId._id ? alert.userId._id.toString() : alert.userId.toString()`
(sos.js 359). -/
def UserRef.refId : UserRef → Nat
  | .raw i => i
  | .populated i _ _ => i

/-- One entry of an alert's `notifiedContacts` ledger. Fan-out writes all
five fields; a contact-response append (sos.js 298-302) leaves `status`
and `error` unset, hence the `Option`s. -/
structure LedgerEntry where
  phone : String
  response : Response
  notifiedAt : Nat
  status : Option NotifStatus
  error : Option String
deriving DecidableEq, Repr

/-- An SOS alert document as the handlers read and write it. The creator
snapshot fields are copied at creation (sos.js 59-71). Defaults for
`status`, `priority`-like fields, the empty ledger and unset resolution
stamps follow the spec's data model (§3), as `models/SOSAlert.js` is not
among the sources. -/
structure Alert where
  userId : UserRef
  userAadhar : String
  userName : String
  userPhone : String
  latitude : Rat
  longitude : Rat
  address : String
  description : String
  emergencyType : EmergencyType
  status : AlertStatus
  notifiedContacts : List LedgerEntry
  resolvedAt : Option Nat
  resolvedBy : Option Nat
deriving DecidableEq, Repr

/-- A transient fan-out recipient: broadcast mode uses other active users
(relationship fixed to "System User"), targeted mode the creator's saved
emergency contacts. -/
structure Recipient where
  name : String
  phone : String
  relationship : String
deriving DecidableEq, Repr

/-- A user document as the broadcast fan-out reads it (`User.find`). -/
structure UserDoc where
  id : Nat
  name : String
  phone : String
deriving DecidableEq, Repr

/-- A saved emergency contact (read dependency of targeted fan-out). -/
structure EmergencyContact where
  name : String
  phone : String
  relationship : String
deriving DecidableEq, Repr

/-- Broadcast-mode recipient conversion (sos.js 136-139): relationship is
the fixed string "System User". -/
def UserDoc.toRecipient (u : UserDoc) : Recipient :=
  ⟨u.name, u.phone, "System User"⟩

/-- Targeted-mode recipient conversion (sos.js 417-423). -/
def EmergencyContact.toRecipient (c : EmergencyContact) : Recipient :=
  ⟨c.name, c.phone, c.relationship⟩

/-- The record pushed onto `notificationResults` for one recipient. -/
structure NotificationResult where
  name : String
  phone : String
  relationship : String
  status : NotifStatus
  error : String
deriving DecidableEq, Repr

/-- Outcome of one Notifier send attempt: the Twilio client accepted the
message, was never configured (`twilioClient`/`twilioPhone` null), or threw
an error whose message is retained. -/
inductive SmsOutcome where
  | sent
  | unconfigured
  | failed (detail : String)
deriving DecidableEq, Repr

/-- The error taxonomy of the route handlers (HTTP 400/403/404 bodies). -/
inductive RouteError where
  | validationFailed
  | notFound
  | invalidTransition
  | forbidden
  | noContacts
deriving DecidableEq, Repr

/-! ## Fan-out engine (the per-recipient loop bodies, sos.js 95-143 and
380-424) -/

/-- One loop iteration of the fan-out: normalize the phone, attempt the
send, classify the outcome (`sent`, `logged` with the fixed
not-configured message, or `failed` with the prefixed error detail), and
build the pushed record. -/
def notifResult (notifier : String → SmsOutcome) (r : Recipient) : NotificationResult :=
  match notifier (formatPhoneNumber r.phone) with
  | .sent => ⟨r.name, formatPhoneNumber r.phone, r.relationship, .sent, ""⟩
  | .unconfigured => ⟨r.name, formatPhoneNumber r.phone, r.relationship, .logged,
      "SMS not configured - emergency logged for manual notification"⟩
  | .failed d => ⟨r.name, formatPhoneNumber r.phone, r.relationship, .failed,
      "SMS failed: " ++ d⟩

/-- The fan-out loop: every recipient is processed in order, a record is
pushed for each regardless of outcome. -/
def fanOut (notifier : String → SmsOutcome) : List Recipient → List NotificationResult
  | [] => []
  | r :: rest => notifResult notifier r :: fanOut notifier rest

/-- Conversion of a fan-out record into the persisted ledger entry
(sos.js 146-152 and 427-433): response starts `pending`. -/
def toLedgerEntry (now : Nat) (r : NotificationResult) : LedgerEntry :=
  ⟨r.phone, .pending, now, some r.status, some r.error⟩

/-! ## Alert store (the subset of the persistence collaborator the
mutating routes use: find by id, write back a saved document) -/

/-- `SOSAlert.findById`: first store entry with the given id. -/
def lookupAlert (store : List (Nat × Alert)) (aid : Nat) : Option Alert :=
  (store.find? (fun p => p.1 == aid)).map Prod.snd

/-- `alert.save()` on an existing document: replace the entry with this id. -/
def setAlert (store : List (Nat × Alert)) (aid : Nat) (a : Alert) :
    List (Nat × Alert) :=
  store.map (fun p => if p.1 == aid then (aid, a) else p)

/-! ## Status update (sos.js 226-269) -/

/-- The `body('status').isIn(['active', 'resolved', 'false_alarm'])`
validator (sos.js 227-229). -/
def parseAlertStatus : String → Option AlertStatus
  | "active" => some .active
  | "resolved" => some .resolved
  | "false_alarm" => some .false_alarm
  | _ => none

/-- Core of the status-update handler (sos.js 241-258): 404 when the alert
is absent, 400 when its status is not `active`, otherwise assign the new
status and, only for `resolved`, stamp `resolvedAt`/`resolvedBy`. The
`notes` argument mirrors `resolutionNotes`, which the source destructures
but never writes anywhere. -/
def updateStatus (found : Option Alert) (newStatus : AlertStatus)
    (resolverId : Nat) (notes : Option String) (now : Nat) :
    Except RouteError Alert :=
  match found with
  | none => .error .notFound
  | some alert =>
    if alert.status ≠ .active then .error .invalidTransition
    else if newStatus = .resolved then
      .ok { alert with status := newStatus, resolvedAt := some now,
                       resolvedBy := some resolverId }
    else .ok { alert with status := newStatus }

/-- The status-update route: validation, then the core operation, saving
the document on success only. -/
def updateStatusRoute (store : List (Nat × Alert)) (aid : Nat)
    (statusStr : String) (resolverId : Nat) (notes : Option String)
    (now : Nat) : Except RouteError Alert × List (Nat × Alert) :=
  match parseAlertStatus statusStr with
  | none => (.error .validationFailed, store)
  | some ns =>
    match updateStatus (lookupAlert store aid) ns resolverId notes now with
    | .error e => (.error e, store)
    | .ok a => (.ok a, setAlert store aid a)

/-! ## Contact response (sos.js 272-316) -/

/-- `alert.notifiedContacts.find(c => c.phone === contactPhone)` followed by
the in-place mutation of that first match (sos.js 293-296): exact string
comparison, first matching entry gets the new response and a refreshed
`notifiedAt`, everything else is untouched. -/
def setFirstMatching (p : String) (r : Response) (now : Nat) :
    List LedgerEntry → List LedgerEntry
  | [] => []
  | e :: rest =>
    if e.phone == p then { e with response := r, notifiedAt := now } :: rest
    else e :: setFirstMatching p r now rest

/-- Core of the contact-response handler (sos.js 285-305): 404 when the
alert is absent; update the first ledger entry whose phone equals
`contactPhone` exactly, or push a new entry (status and error unset) when
none matches. -/
def recordContactResponse (found : Option Alert) (contactPhone : String)
    (resp : Response) (now : Nat) : Except RouteError Alert :=
  match found with
  | none => .error .notFound
  | some alert =>
    if alert.notifiedContacts.any (fun c => c.phone == contactPhone) then
      .ok { alert with notifiedContacts :=
              setFirstMatching contactPhone resp now alert.notifiedContacts }
    else
      .ok { alert with notifiedContacts :=
              alert.notifiedContacts ++ [⟨contactPhone, resp, now, none, none⟩] }

/-- The contact-response route (sos.js 272-316). It mounts no
authentication middleware and never reads `req.user`: the `caller`
argument models whatever identity the transport might carry, and the
handler ignores it. Validation requires a nonempty phone and a response
in {acknowledged, responding, unreachable}. -/
def contactResponseRoute (store : List (Nat × Alert)) (caller : Option Nat)
    (aid : Nat) (contactPhone : String) (resp : Response) (now : Nat) :
    Except RouteError Alert × List (Nat × Alert) :=
  if contactPhone = "" then (.error .validationFailed, store)
  else if resp = .pending then (.error .validationFailed, store)
  else
    match recordContactResponse (lookupAlert store aid) contactPhone resp now with
    | .error e => (.error e, store)
    | .ok a => (.ok a, setAlert store aid a)

/-! ## Targeted notify-contacts (sos.js 349-446) -/

/-- Core of the notify-contacts handler: 404 when the alert is absent, 403
unless the requester is the alert's creator (dual-path id comparison via
`UserRef.refId`), 400 when the requester's saved emergency-contact list is
missing or empty, otherwise targeted fan-out with the ledger overwritten
wholesale. `userContacts` is the result of `User.findById(req.user._id)`
followed by the `emergencyContacts` read: `none` models an absent user or
absent list. -/
def notifyContacts (found : Option Alert) (requesterId : Nat)
    (userContacts : Option (List EmergencyContact))
    (notifier : String → SmsOutcome) (now : Nat) :
    Except RouteError (Alert × List NotificationResult) :=
  match found with
  | none => .error .notFound
  | some alert =>
    if UserRef.refId alert.userId ≠ requesterId then .error .forbidden
    else
      match userContacts with
      | none => .error .noContacts
      | some contacts =>
        if contacts.isEmpty then .error .noContacts
        else
          let results := fanOut notifier (contacts.map EmergencyContact.toRecipient)
          .ok ({ alert with notifiedContacts := results.map (toLedgerEntry now) },
               results)

/-- The notify-contacts route: core operation, then `alert.save()` on
success only. -/
def notifyContactsRoute (store : List (Nat × Alert)) (aid : Nat)
    (requesterId : Nat) (userContacts : Option (List EmergencyContact))
    (notifier : String → SmsOutcome) (now : Nat) :
    Except RouteError (List NotificationResult) × List (Nat × Alert) :=
  match notifyContacts (lookupAlert store aid) requesterId userContacts notifier now with
  | .error e => (.error e, store)
  | .ok (a, results) => (.ok results, setAlert store aid a)

/-! ## Alert creation with broadcast fan-out (sos.js 43-172) -/

/-- The authenticated creator (`req.user`), with the optional display name
the handler defaults to "Anonymous". -/
structure SosUser where
  id : Nat
  aadhar : String
  name : Option String
  phone : String
deriving DecidableEq, Repr

/-- The create-alert request body. -/
structure CreateInput where
  latitude : Rat
  longitude : Rat
  address : Option String
  description : Option String
  emergencyType : Option EmergencyType
deriving DecidableEq, Repr

/-- The `createAlertValidation` rules (sos.js 15-30): latitude in
[-90, 90], longitude in [-180, 180], optional description of at most 500
characters; the emergency-type enum check is carried by the
`EmergencyType` type itself. -/
def validateCreate (inp : CreateInput) : Bool :=
  decide (-90 ≤ inp.latitude) && decide (inp.latitude ≤ 90) &&
  decide (-180 ≤ inp.longitude) && decide (inp.longitude ≤ 180) &&
  (match inp.description with
   | some d => decide (d.length ≤ 500)
   | none => true)

/-- The freshly constructed alert document (sos.js 59-71) before any
notification work: creator snapshot copied, defaults applied. -/
def newAlertFromInput (user : SosUser) (inp : CreateInput) : Alert :=
  { userId := .raw user.id
    userAadhar := user.aadhar
    userName := user.name.getD "Anonymous"
    userPhone := user.phone
    latitude := inp.latitude
    longitude := inp.longitude
    address := inp.address.getD ""
    description := inp.description.getD ""
    emergencyType := inp.emergencyType.getD .other
    status := .active
    notifiedContacts := []
    resolvedAt := none
    resolvedBy := none }

/-- Environment of the notification phase of alert creation, carrying its
injectable fault points: `users` is the outcome of
`User.find({isActive: true, _id: {$ne: user._id}})` (an `error` models
its rejection); `fanOutFault = some k` models an unexpected throw inside
the loop after `k` complete iterations (the per-send try/catch already
absorbs Notifier failures, so this stands for faults outside it);
`ledgerSaveOk = false` models the second `sosAlert.save()` rejecting
after `notifiedContacts` was assigned in memory. -/
structure NotificationEnv where
  users : Except String (List UserDoc)
  notifier : String → SmsOutcome
  fanOutFault : Option Nat
  ledgerSaveOk : Bool

/-- The broadcast recipient set resolved by the notification phase. -/
def broadcastRecipients (env : NotificationEnv) : List Recipient :=
  match env.users with
  | .ok us => us.map UserDoc.toRecipient
  | .error _ => []

/-- The HTTP 201 payload of alert creation: the alert document and the
`notifications` array. -/
structure CreateResponse where
  alert : Alert
  notifications : List NotificationResult
deriving Repr

/-- The create-alert handler (sos.js 43-172): validate, persist the new
alert, then run the broadcast notification phase inside its own
try/catch — any fault there is swallowed (sos.js 157-160) and the
response is still 201 with whatever `notificationResults` accumulated.
Returns the HTTP outcome and the alert as persisted in the store
(`none` when validation failed before the first save). -/
def createAlert (user : SosUser) (inp : CreateInput) (env : NotificationEnv)
    (now : Nat) : Except RouteError CreateResponse × Option Alert :=
  if validateCreate inp then
    let alert0 := newAlertFromInput user inp
    match env.users with
    | .error _ => (.ok ⟨alert0, []⟩, some alert0)
    | .ok users =>
      if users.isEmpty then (.ok ⟨alert0, []⟩, some alert0)
      else
        match env.fanOutFault with
        | some k =>
          (.ok ⟨alert0, fanOut env.notifier ((users.take k).map UserDoc.toRecipient)⟩,
           some alert0)
        | none =>
          let results := fanOut env.notifier (users.map UserDoc.toRecipient)
          let alert1 := { alert0 with
            notifiedContacts := results.map (toLedgerEntry now) }
          (.ok ⟨alert1, results⟩, some (if env.ledgerSaveOk then alert1 else alert0))
  else (.error .validationFailed, none)

/-! ## Concrete fixtures used by the witness theorems -/

/-- A concrete active alert created by user 1. -/
def wAlert : Alert :=
  { userId := .raw 1, userAadhar := "111122223333", userName := "Asha",
    userPhone := "9876543210", latitude := 12, longitude := 77,
    address := "", description := "", emergencyType := .other,
    status := .active, notifiedContacts := [], resolvedAt := none,
    resolvedBy := none }

/-- The same alert already resolved. -/
def wAlertResolved : Alert :=
  { wAlert with status := .resolved, resolvedAt := some 4, resolvedBy := some 2 }

/-- A two-entry notification ledger. -/
def wLedger : List LedgerEntry :=
  [⟨"+911111111111", .pending, 1, some .sent, some ""⟩,
   ⟨"+912222222222", .pending, 1, some .logged, some "m"⟩]

/-- The concrete alert carrying `wLedger`. -/
def wAlertWithLedger : Alert := { wAlert with notifiedContacts := wLedger }

/-- A one-alert store keyed by id 7. -/
def wStore : List (Nat × Alert) := [(7, wAlertWithLedger)]

/-- A one-alert store holding the resolved alert under id 7. -/
def wStoreResolved : List (Nat × Alert) := [(7, wAlertResolved)]

/-- A concrete broadcast recipient (another active user). -/
def wDoc : UserDoc := ⟨2, "Bela", "8888888888"⟩

/-- A second broadcast recipient. -/
def wDoc2 : UserDoc := ⟨3, "Chitra", "7777777777"⟩

/-- A concrete saved emergency contact. -/
def wContact : EmergencyContact := ⟨"Mom", "9876543211", "mother"⟩

/-- A Notifier that always reports success. -/
def wNotifier : String → SmsOutcome := fun _ => .sent

/-- The authenticated creator used by the creation witnesses. -/
def wUser : SosUser := ⟨1, "111122223333", some "Asha", "9876543210"⟩

/-- A valid create-alert body. -/
def wInp : CreateInput := ⟨12, 77, none, none, some .assault⟩

/-- A fault-free notification environment with one other active user. -/
def wEnv : NotificationEnv := ⟨.ok [wDoc], wNotifier, none, true⟩

/-- An environment whose fan-out faults after one iteration. -/
def wEnvFault : NotificationEnv := ⟨.ok [wDoc, wDoc2], wNotifier, some 1, true⟩

/-! ### Trim lemmas -/

theorem trimChars_dropWhile_eq_self (l : List Char) :
    List.dropWhile isSpaceChar (trimChars l) = trimChars l := by
  unfold trimChars
  rcases h : List.rdropWhile isSpaceChar (List.dropWhile isSpaceChar l) with _ | ⟨c, t⟩
  · rfl
  · rw [List.dropWhile_eq_self_iff]
    intro hl
    have hpre := List.rdropWhile_prefix isSpaceChar (List.dropWhile isSpaceChar l)
    rw [h] at hpre
    obtain ⟨tail, htail⟩ := hpre
    have hq : (List.dropWhile isSpaceChar l).head? = some c := by
      rw [← htail]; rfl
    have h1 := List.head?_dropWhile_not isSpaceChar l
    rw [hq] at h1
    have h2 : isSpaceChar c = false := h1
    have h3 : (c :: t).get ⟨0, hl⟩ = c := rfl
    rw [h3, h2]
    simp

theorem trimChars_idem (l : List Char) :
    trimChars (trimChars l) = trimChars l := by
  conv_lhs => rw [trimChars, trimChars_dropWhile_eq_self]
  rw [trimChars, List.rdropWhile_idempotent]

theorem trimChars_eq_self_of_no_space (l : List Char)
    (h : ∀ c ∈ l, isSpaceChar c = false) : trimChars l = l := by
  unfold trimChars
  have h1 : List.dropWhile isSpaceChar l = l := by
    rw [List.dropWhile_eq_self_iff]
    intro hl
    simpa using h _ (List.get_mem l 0 hl)
  rw [h1, List.rdropWhile_eq_self_iff]
  intro hl
  simpa using h _ (List.getLast_mem hl)

theorem isDigitCh_not_space {c : Char} (h : isDigitCh c = true) :
    isSpaceChar c = false := by
  rcases hs : isSpaceChar c with _ | _
  · rfl
  · exfalso
    simp only [isSpaceChar, Bool.or_eq_true, beq_iff_eq] at hs
    rcases hs with ((((h1 | h1) | h1) | h1) | h1) | h1 <;>
      (subst h1; simp [isDigitCh] at h)

theorem isIndianStart_digit {c : Char} (h : isIndianStart c = true) :
    isDigitCh c = true := by
  simp only [isIndianStart, Bool.and_eq_true, decide_eq_true_eq] at h
  simp only [isDigitCh, Bool.and_eq_true, decide_eq_true_eq]
  exact ⟨le_trans (by decide) h.1, h.2⟩

theorem matchMobile10_digits {t : List Char} (h : matchMobile10 t = true) :
    ∀ c ∈ t, isDigitCh c = true := by
  rcases t with _ | ⟨c, rest⟩
  · intro c hc; cases hc
  · simp only [matchMobile10, Bool.and_eq_true] at h
    intro x hx
    rcases List.mem_cons.mp hx with h1 | h1
    · subst h1; exact isIndianStart_digit h.1.1
    · exact List.all_eq_true.mp h.2 x h1

theorem matchMobile0_digits {t : List Char} (h : matchMobile0 t = true) :
    ∀ c ∈ t, isDigitCh c = true := by
  rcases t with _ | ⟨c, rest⟩
  · intro c hc; cases hc
  · simp only [matchMobile0, Bool.and_eq_true, beq_iff_eq] at h
    intro x hx
    rcases List.mem_cons.mp hx with h1 | h1
    · subst h1; rw [h.1]; decide
    · exact matchMobile10_digits h.2 x h1

theorem formatPhoneChars_plus_fixed {r : List Char} (hhead : r.head? = some '+')
    (hclean : trimChars r = r) : formatPhoneChars r = r := by
  have hne : r.isEmpty = false := by
    rcases r with _ | _
    · cases hhead
    · rfl
  unfold formatPhoneChars
  rw [if_neg (by simp [hne]), hclean, if_pos (by simp [hhead])]

theorem formatPhoneChars_else_fixed {t : List Char} (hclean : trimChars t = t)
    (hplus : ¬ ((t.head? == some '+') = true)) (h10 : matchMobile10 t = false)
    (h0 : matchMobile0 t = false) : formatPhoneChars t = t := by
  rcases he : t.isEmpty with _ | _
  · unfold formatPhoneChars
    rw [if_neg (by simp [he]), hclean, if_neg hplus, h10, if_neg (by simp), h0,
      if_neg (by simp)]
  · rcases t with _ | _
    · rfl
    · simp [List.isEmpty] at he

theorem formatPhoneChars_idem (l : List Char) :
    formatPhoneChars (formatPhoneChars l) = formatPhoneChars l := by
  by_cases hemp : l.isEmpty = true
  · have hr : formatPhoneChars l = [] := by
      unfold formatPhoneChars; rw [if_pos hemp]
    rw [hr]; rfl
  · by_cases hplus : ((trimChars l).head? == some '+') = true
    · have hr : formatPhoneChars l = trimChars l := by
        unfold formatPhoneChars; rw [if_neg hemp, if_pos hplus]
      rw [hr]
      exact formatPhoneChars_plus_fixed (by simpa using hplus) (trimChars_idem l)
    · by_cases h10 : matchMobile10 (trimChars l) = true
      · have hr : formatPhoneChars l = '+' :: '9' :: '1' :: trimChars l := by
          unfold formatPhoneChars; rw [if_neg hemp, if_neg hplus, if_pos h10]
        rw [hr]
        refine formatPhoneChars_plus_fixed rfl ?_
        apply trimChars_eq_self_of_no_space
        intro c hc
        rcases List.mem_cons.mp hc with h1 | h1
        · subst h1; rfl
        rcases List.mem_cons.mp h1 with h2 | h2
        · subst h2; rfl
        rcases List.mem_cons.mp h2 with h3 | h3
        · subst h3; rfl
        · exact isDigitCh_not_space (matchMobile10_digits h10 c h3)
      · by_cases h0 : matchMobile0 (trimChars l) = true
        · have hr : formatPhoneChars l = '+' :: '9' :: '1' :: (trimChars l).tail := by
            unfold formatPhoneChars
            rw [if_neg hemp, if_neg hplus, if_neg h10, if_pos h0]
          rw [hr]
          refine formatPhoneChars_plus_fixed rfl ?_
          apply trimChars_eq_self_of_no_space
          intro c hc
          rcases List.mem_cons.mp hc with h1 | h1
          · subst h1; rfl
          rcases List.mem_cons.mp h1 with h2 | h2
          · subst h2; rfl
          rcases List.mem_cons.mp h2 with h3 | h3
          · subst h3; rfl
          · exact isDigitCh_not_space
              (matchMobile0_digits h0 c (List.mem_of_mem_tail h3))
        · have hr : formatPhoneChars l = trimChars l := by
            unfold formatPhoneChars
            rw [if_neg hemp, if_neg hplus, if_neg h10, if_neg h0]
          rw [hr]
          exact formatPhoneChars_else_fixed (trimChars_idem l) hplus
            (by simpa using h10) (by simpa using h0)

/-! ### Equivalence of the code's regexes with the spec's wording -/

theorem matchMobile10_eq_specTenDigit (t : List Char) :
    matchMobile10 t = specTenDigit t := by
  rcases t with _ | ⟨c, rest⟩
  · rfl
  · rw [Bool.eq_iff_iff]
    simp only [matchMobile10, specTenDigit, List.length_cons, List.head?_cons,
      List.all_cons, Bool.and_eq_true, beq_iff_eq]
    constructor
    · rintro ⟨⟨hc, hlen⟩, hall⟩
      exact ⟨⟨by omega, isIndianStart_digit hc, hall⟩, hc⟩
    · rintro ⟨⟨hlen, _, hall⟩, hc⟩
      exact ⟨⟨hc, by omega⟩, hall⟩

theorem matchMobile0_eq_specZeroEleven (t : List Char) :
    matchMobile0 t = specZeroEleven t := by
  rcases t with _ | ⟨c, rest⟩
  · rfl
  · rw [Bool.eq_iff_iff]
    simp only [matchMobile0, specZeroEleven, matchMobile10_eq_specTenDigit,
      specTenDigit, List.length_cons, List.head?_cons, List.tail_cons,
      Bool.and_eq_true, beq_iff_eq, Option.some.injEq]
    constructor
    · rintro ⟨hc, ⟨hlen, hall⟩, hm⟩
      exact ⟨⟨⟨by omega, hc⟩, hall⟩, hm⟩
    · rintro ⟨⟨⟨hlen, hc⟩, hall⟩, hm⟩
      exact ⟨hc, ⟨by omega, hall⟩, hm⟩

theorem mk_plus91 (t : List Char) :
    String.mk ('+' :: '9' :: '1' :: t) = "+91" ++ String.mk t := rfl

theorem formatPhoneNumber_eq_specNormalize (s : String) :
    formatPhoneNumber s = specNormalize s := by
  by_cases hs : s = ""
  · subst hs; rfl
  · have hd : s.data.isEmpty = false := by
      rcases h : s.data with _ | _
      · exact absurd (String.ext (h.trans rfl)) hs
      · rfl
    unfold formatPhoneNumber specNormalize formatPhoneChars
    rw [if_neg hs, if_neg (by simp [hd]),
      matchMobile10_eq_specTenDigit, matchMobile0_eq_specZeroEleven]
    by_cases hplus : ((trimChars s.data).head? == some '+') = true
    · rw [if_pos hplus, if_pos hplus]
    · rw [if_neg hplus, if_neg hplus]
      by_cases h10 : specTenDigit (trimChars s.data) = true
      · rw [if_pos h10, if_pos h10, mk_plus91]
      · rw [if_neg h10, if_neg h10]
        by_cases h0 : specZeroEleven (trimChars s.data) = true
        · rw [if_pos h0, if_pos h0, mk_plus91, List.drop_one]
        · rw [if_neg h0, if_neg h0]

/-! ## Claims C7 and C8 -/

/-- C7: the phone normalizer is a total function computing, with
first-match-wins rule order, exactly the rules of §4.1 (empty input to
empty string; trimmed input starting with `+` unchanged; ten digits
starting 6-9 get `+91`; a leading `0` before such ten digits is stripped
and `+91` prefixed; anything else passes through trimmed), and in
particular the four concrete examples of §8. Totality is inherent:
`formatPhoneNumber` is a total Lean function on all of `String`. -/
theorem claim_C7_phone_normalizer_rules :
    (∀ s : String, formatPhoneNumber s = specNormalize s) ∧
    formatPhoneNumber "" = "" ∧
    formatPhoneNumber "9876543210" = "+919876543210" ∧
    formatPhoneNumber "09876543210" = "+919876543210" ∧
    formatPhoneNumber "+19876543210" = "+19876543210" ∧
    formatPhoneNumber "12345" = "12345" :=
  ⟨formatPhoneNumber_eq_specNormalize, by decide, by decide, by decide,
    by decide, by decide⟩

/-- C8: phone normalization is idempotent:
`normalize (normalize x) = normalize x` for every string `x`. -/
theorem claim_C8_normalize_idempotent (s : String) :
    formatPhoneNumber (formatPhoneNumber s) = formatPhoneNumber s := by
  unfold formatPhoneNumber
  exact congrArg String.mk (formatPhoneChars_idem s.data)

/-! ## Fan-out lemmas and claim C3 -/

theorem fanOut_eq_map (notifier : String → SmsOutcome) (rs : List Recipient) :
    fanOut notifier rs = rs.map (notifResult notifier) := by
  induction rs with
  | nil => rfl
  | cons r rest ih => simp [fanOut, ih]

theorem fanOut_length (notifier : String → SmsOutcome) (rs : List Recipient) :
    (fanOut notifier rs).length = rs.length := by
  rw [fanOut_eq_map]
  simp

/-- C3: every fan-out recipient yields exactly one record, in position:
the ledger has one entry per recipient (no skip, no early termination),
the `i`-th entry is the classification of the `i`-th recipient, and the
outcome mapping is `Sent` to status `sent` with empty error,
`Unconfigured` to status `logged` with the fixed not-configured message,
and `Failed detail` to status `failed` with error `"SMS failed: " ++
detail`. -/
theorem claim_C3_fanout_outcome_mapping (notifier : String → SmsOutcome)
    (rs : List Recipient) :
    (fanOut notifier rs).length = rs.length ∧
    (∀ (i : Nat) (r : Recipient), rs[i]? = some r →
      (fanOut notifier rs)[i]? = some (notifResult notifier r)) ∧
    (∀ r : Recipient,
      (notifier (formatPhoneNumber r.phone) = .sent →
        notifResult notifier r =
          ⟨r.name, formatPhoneNumber r.phone, r.relationship, .sent, ""⟩) ∧
      (notifier (formatPhoneNumber r.phone) = .unconfigured →
        notifResult notifier r =
          ⟨r.name, formatPhoneNumber r.phone, r.relationship, .logged,
            "SMS not configured - emergency logged for manual notification"⟩) ∧
      (∀ d, notifier (formatPhoneNumber r.phone) = .failed d →
        notifResult notifier r =
          ⟨r.name, formatPhoneNumber r.phone, r.relationship, .failed,
            "SMS failed: " ++ d⟩)) := by
  refine ⟨fanOut_length notifier rs, ?_, ?_⟩
  · intro i r h
    rw [fanOut_eq_map, List.getElem?_map, h]
    rfl
  · intro r
    refine ⟨fun h => ?_, fun h => ?_, fun d h => ?_⟩ <;>
      (unfold notifResult; rw [h])

/-- Witness for C3 at a concrete recipient list and an unconfigured
Notifier. -/
theorem claim_C3_witness :
    (([⟨"Asha", "9876543210", "Friend"⟩] : List Recipient))[0]? =
      some ⟨"Asha", "9876543210", "Friend"⟩ ∧
    (fanOut (fun _ => SmsOutcome.unconfigured)
        [⟨"Asha", "9876543210", "Friend"⟩])[0]? =
      some (notifResult (fun _ => SmsOutcome.unconfigured)
        ⟨"Asha", "9876543210", "Friend"⟩) ∧
    notifResult (fun _ => SmsOutcome.unconfigured)
        ⟨"Asha", "9876543210", "Friend"⟩ =
      ⟨"Asha", "+919876543210", "Friend", .logged,
        "SMS not configured - emergency logged for manual notification"⟩ := by
  refine ⟨rfl, ?_, ?_⟩
  · exact (claim_C3_fanout_outcome_mapping (fun _ => SmsOutcome.unconfigured)
      [⟨"Asha", "9876543210", "Friend"⟩]).2.1 0 _ rfl
  · have h := ((claim_C3_fanout_outcome_mapping (fun _ => SmsOutcome.unconfigured)
      [⟨"Asha", "9876543210", "Friend"⟩]).2.2
        ⟨"Asha", "9876543210", "Friend"⟩).2.1 rfl
    rw [h]
    decide

/-! ## Status-update lemmas and claims C4, C9 -/

theorem update_active_eq (a : Alert) (h : a.status = .active) :
    { a with status := AlertStatus.active } = a := by
  cases a
  simp_all

/-- C4: the status-update operation 404s when the alert is absent, 400s
(invalid transition) when the alert is not `active` — leaving the store
untouched at route level — and on an active alert moving to `resolved`
stamps `resolvedAt = now` and `resolvedBy` with the resolver, while
moving to `false_alarm` stamps neither. -/
theorem claim_C4_update_status_transitions :
    (∀ (ns : AlertStatus) (rid : Nat) (notes : Option String) (now : Nat),
      updateStatus none ns rid notes now = .error .notFound) ∧
    (∀ (a : Alert) (ns : AlertStatus) (rid : Nat) (notes : Option String)
        (now : Nat), a.status ≠ .active →
      updateStatus (some a) ns rid notes now = .error .invalidTransition) ∧
    (∀ (store : List (Nat × Alert)) (aid : Nat) (a : Alert)
        (ns : AlertStatus) (sstr : String) (rid : Nat) (notes : Option String)
        (now : Nat), parseAlertStatus sstr = some ns →
      lookupAlert store aid = some a → a.status ≠ .active →
      updateStatusRoute store aid sstr rid notes now =
        (.error .invalidTransition, store)) ∧
    (∀ (a : Alert) (rid : Nat) (notes : Option String) (now : Nat),
      a.status = .active →
      updateStatus (some a) .resolved rid notes now =
        .ok { a with status := .resolved, resolvedAt := some now,
                     resolvedBy := some rid }) ∧
    (∀ (a : Alert) (rid : Nat) (notes : Option String) (now : Nat),
      a.status = .active →
      updateStatus (some a) .false_alarm rid notes now =
        .ok { a with status := .false_alarm }) := by
  refine ⟨fun ns rid notes now => rfl, ?_, ?_, ?_, ?_⟩
  · intro a ns rid notes now h
    simp only [updateStatus]
    rw [if_pos h]
  · intro store aid a ns sstr rid notes now hp hl h
    simp only [updateStatusRoute, hp, hl, updateStatus]
    rw [if_pos h]
  · intro a rid notes now h
    simp only [updateStatus]
    rw [if_neg (by simp [h])]
    simp
  · intro a rid notes now h
    simp only [updateStatus]
    rw [if_neg (by simp [h])]
    simp

/-- Witness for C4 on concrete alerts and a concrete store. -/
theorem claim_C4_witness :
    updateStatus none .resolved 2 none 10 = .error .notFound ∧
    (wAlertResolved.status ≠ .active ∧
      updateStatus (some wAlertResolved) .resolved 2 none 10 =
        .error .invalidTransition) ∧
    (parseAlertStatus "resolved" = some .resolved ∧
      lookupAlert wStoreResolved 7 = some wAlertResolved ∧
      updateStatusRoute wStoreResolved 7 "resolved" 2 none 10 =
        (.error .invalidTransition, wStoreResolved)) ∧
    (wAlert.status = .active ∧
      updateStatus (some wAlert) .resolved 2 none 10 =
        .ok { wAlert with status := .resolved, resolvedAt := some 10,
                          resolvedBy := some 2 }) ∧
    (wAlert.status = .active ∧
      updateStatus (some wAlert) .false_alarm 2 none 10 =
        .ok { wAlert with status := .false_alarm }) := by
  refine ⟨claim_C4_update_status_transitions.1 .resolved 2 none 10,
    ⟨by decide, ?_⟩, ⟨rfl, rfl, ?_⟩, ⟨rfl, ?_⟩, ⟨rfl, ?_⟩⟩
  · exact claim_C4_update_status_transitions.2.1 wAlertResolved .resolved 2
      none 10 (by decide)
  · exact claim_C4_update_status_transitions.2.2.1 wStoreResolved 7
      wAlertResolved .resolved "resolved" 2 none 10 rfl rfl (by decide)
  · exact claim_C4_update_status_transitions.2.2.2.1 wAlert 2 none 10 rfl
  · exact claim_C4_update_status_transitions.2.2.2.2 wAlert 2 none 10 rfl

/-- C9: `active` is an accepted target status, and updating an active
alert to `active` succeeds and returns the alert unchanged — status still
`active`, `resolvedAt`/`resolvedBy` untouched. -/
theorem claim_C9_active_to_active_allowed :
    parseAlertStatus "active" = some .active ∧
    (∀ (a : Alert) (rid : Nat) (notes : Option String) (now : Nat),
      a.status = .active →
      updateStatus (some a) .active rid notes now = .ok a) := by
  refine ⟨rfl, ?_⟩
  intro a rid notes now h
  simp only [updateStatus]
  rw [if_neg (by simp [h]), if_neg (by simp), update_active_eq a h]

/-- Witness for C9 on a concrete active alert. -/
theorem claim_C9_witness :
    wAlert.status = .active ∧
    updateStatus (some wAlert) .active 2 none 10 = .ok wAlert :=
  ⟨rfl, claim_C9_active_to_active_allowed.2 wAlert 2 none 10 rfl⟩

/-! ## Contact-response lemmas and claims C6, C10 -/

theorem setFirstMatching_length (p : String) (r : Response) (now : Nat)
    (l : List LedgerEntry) : (setFirstMatching p r now l).length = l.length := by
  induction l with
  | nil => rfl
  | cons e rest ih =>
    simp only [setFirstMatching]
    by_cases h : (e.phone == p) = true
    · rw [if_pos h]
      simp
    · rw [if_neg h]
      simp [ih]

theorem setFirstMatching_spec (p : String) (r : Response) (now : Nat) :
    ∀ l : List LedgerEntry, l.any (fun c => c.phone == p) = true →
      ∃ (i : Nat) (e : LedgerEntry), l[i]? = some e ∧ e.phone = p ∧
        (∀ j e2, j < i → l[j]? = some e2 → e2.phone ≠ p) ∧
        (setFirstMatching p r now l)[i]? =
          some { e with response := r, notifiedAt := now } ∧
        (∀ j, j ≠ i → (setFirstMatching p r now l)[j]? = l[j]?) := by
  intro l
  induction l with
  | nil => intro h; cases h
  | cons e0 rest ih =>
    intro h
    by_cases h0 : (e0.phone == p) = true
    · refine ⟨0, e0, by simp, beq_iff_eq.mp h0, ?_, ?_, ?_⟩
      · intro j e2 hj
        exact absurd hj (Nat.not_lt_zero j)
      · simp [setFirstMatching, h0]
      · intro j hj
        cases j with
        | zero => exact absurd rfl hj
        | succ j2 => simp [setFirstMatching, h0]
    · have hrest : rest.any (fun c => c.phone == p) = true := by
        simpa [List.any_cons, h0] using h
      obtain ⟨i, e, h1, h2, h3, h4, h5⟩ := ih hrest
      refine ⟨i + 1, e, by simpa using h1, h2, ?_, ?_, ?_⟩
      · intro j e2 hj hje
        cases j with
        | zero =>
          have : e0 = e2 := by simpa using hje
          subst this
          simpa using h0
        | succ j2 =>
          exact h3 j2 e2 (by omega) (by simpa using hje)
      · simpa [setFirstMatching, h0] using h4
      · intro j hj
        cases j with
        | zero => simp [setFirstMatching, h0]
        | succ j2 =>
          have hne : j2 ≠ i := by omega
          simpa [setFirstMatching, h0] using h5 j2 hne

/-- C6: recording a contact response 404s when the alert is absent; when a
ledger entry's phone equals the given phone exactly, the first such entry
gets the new response and a refreshed `notifiedAt` while the ledger keeps
its length and every other entry; when no entry matches, a new entry with
the given phone and response (status and error unset) is appended, growing
the ledger by exactly one. -/
theorem claim_C6_record_contact_response :
    (∀ (p : String) (r : Response) (now : Nat),
      recordContactResponse none p r now = .error .notFound) ∧
    (∀ (a : Alert) (p : String) (r : Response) (now : Nat),
      a.notifiedContacts.any (fun c => c.phone == p) = true →
      ∃ a2, recordContactResponse (some a) p r now = .ok a2 ∧
        a2.notifiedContacts.length = a.notifiedContacts.length ∧
        ∃ (i : Nat) (e : LedgerEntry),
          a.notifiedContacts[i]? = some e ∧ e.phone = p ∧
          (∀ j e2, j < i → a.notifiedContacts[j]? = some e2 → e2.phone ≠ p) ∧
          a2.notifiedContacts[i]? =
            some { e with response := r, notifiedAt := now } ∧
          (∀ j, j ≠ i → a2.notifiedContacts[j]? = a.notifiedContacts[j]?)) ∧
    (∀ (a : Alert) (p : String) (r : Response) (now : Nat),
      a.notifiedContacts.any (fun c => c.phone == p) = false →
      recordContactResponse (some a) p r now =
        .ok { a with notifiedContacts :=
                a.notifiedContacts ++ [⟨p, r, now, none, none⟩] } ∧
      (a.notifiedContacts ++ [(⟨p, r, now, none, none⟩ : LedgerEntry)]).length =
        a.notifiedContacts.length + 1) := by
  refine ⟨fun p r now => rfl, ?_, ?_⟩
  · intro a p r now h
    refine ⟨{ a with notifiedContacts :=
        setFirstMatching p r now a.notifiedContacts }, ?_, ?_, ?_⟩
    · simp only [recordContactResponse]
      rw [if_pos h]
    · simpa using setFirstMatching_length p r now a.notifiedContacts
    · simpa using setFirstMatching_spec p r now a.notifiedContacts h
  · intro a p r now h
    constructor
    · simp only [recordContactResponse]
      rw [if_neg (by simp [h])]
    · simp

/-- Witness for C6 on the concrete two-entry ledger: one call matching the
second entry, one call matching nothing. -/
theorem claim_C6_witness :
    recordContactResponse none "+912222222222" .acknowledged 9 =
      .error .notFound ∧
    (wAlertWithLedger.notifiedContacts.any
        (fun c => c.phone == "+912222222222") = true ∧
      ∃ a2, recordContactResponse (some wAlertWithLedger) "+912222222222"
          .acknowledged 9 = .ok a2 ∧
        a2.notifiedContacts.length =
          wAlertWithLedger.notifiedContacts.length ∧
        ∃ (i : Nat) (e : LedgerEntry),
          wAlertWithLedger.notifiedContacts[i]? = some e ∧
          e.phone = "+912222222222" ∧
          (∀ j e2, j < i → wAlertWithLedger.notifiedContacts[j]? = some e2 →
            e2.phone ≠ "+912222222222") ∧
          a2.notifiedContacts[i]? =
            some { e with response := .acknowledged, notifiedAt := 9 } ∧
          (∀ j, j ≠ i →
            a2.notifiedContacts[j]? = wAlertWithLedger.notifiedContacts[j]?)) ∧
    (wAlertWithLedger.notifiedContacts.any
        (fun c => c.phone == "+913333333333") = false ∧
      recordContactResponse (some wAlertWithLedger) "+913333333333"
          .responding 9 =
        .ok { wAlertWithLedger with notifiedContacts :=
          wAlertWithLedger.notifiedContacts ++
            [⟨"+913333333333", .responding, 9, none, none⟩] }) := by
  refine ⟨claim_C6_record_contact_response.1 "+912222222222" .acknowledged 9,
    ⟨by decide, ?_⟩, ⟨by decide, ?_⟩⟩
  · exact claim_C6_record_contact_response.2.1 wAlertWithLedger
      "+912222222222" .acknowledged 9 (by decide)
  · exact (claim_C6_record_contact_response.2.2 wAlertWithLedger
      "+913333333333" .responding 9 (by decide)).1

/-- C10: the contact-response route mounts no authentication and never
consults a caller identity: with the same store, alert id, phone and
response, any two caller identities (present or absent) produce the
identical HTTP outcome and store. -/
theorem claim_C10_contact_response_ignores_caller
    (store : List (Nat × Alert)) (c1 c2 : Option Nat) (aid : Nat)
    (p : String) (r : Response) (now : Nat) :
    contactResponseRoute store c1 aid p r now =
      contactResponseRoute store c2 aid p r now := rfl

/-! ## Notify-contacts claims C5 and C2 -/

/-- C5: notify-contacts by a non-creator fails with Forbidden and leaves
the store unchanged; the creator comparison is tolerant of both a raw and
a populated creator reference (both expose the same identity); and
notify-contacts by the creator with a missing or empty emergency-contact
list fails with NoContacts, store unchanged. -/
theorem claim_C5_notify_contacts_guards :
    (∀ (i : Nat) (n ph : String),
      UserRef.refId (.raw i) = i ∧ UserRef.refId (.populated i n ph) = i) ∧
    (∀ (store : List (Nat × Alert)) (aid : Nat) (a : Alert) (requester : Nat)
        (contacts : Option (List EmergencyContact))
        (notifier : String → SmsOutcome) (now : Nat),
      lookupAlert store aid = some a →
      UserRef.refId a.userId ≠ requester →
      notifyContactsRoute store aid requester contacts notifier now =
        (.error .forbidden, store)) ∧
    (∀ (store : List (Nat × Alert)) (aid : Nat) (a : Alert) (requester : Nat)
        (notifier : String → SmsOutcome) (now : Nat),
      lookupAlert store aid = some a →
      UserRef.refId a.userId = requester →
      notifyContactsRoute store aid requester none notifier now =
        (.error .noContacts, store)) ∧
    (∀ (store : List (Nat × Alert)) (aid : Nat) (a : Alert) (requester : Nat)
        (notifier : String → SmsOutcome) (now : Nat),
      lookupAlert store aid = some a →
      UserRef.refId a.userId = requester →
      notifyContactsRoute store aid requester (some []) notifier now =
        (.error .noContacts, store)) := by
  refine ⟨fun i n ph => ⟨rfl, rfl⟩, ?_, ?_, ?_⟩
  · intro store aid a requester contacts notifier now hl hne
    simp only [notifyContactsRoute, hl, notifyContacts]
    rw [if_pos hne]
  · intro store aid a requester notifier now hl he
    simp only [notifyContactsRoute, hl, notifyContacts]
    rw [if_neg (by simp [he])]
  · intro store aid a requester notifier now hl he
    simp only [notifyContactsRoute, hl, notifyContacts]
    rw [if_neg (by simp [he])]
    rfl

/-- Witness for C5: requester 2 is not the creator of `wAlert` (creator 1);
requester 1 is, but has no saved contacts. -/
theorem claim_C5_witness :
    lookupAlert wStore 7 = some wAlertWithLedger ∧
    UserRef.refId wAlertWithLedger.userId ≠ 2 ∧
    notifyContactsRoute wStore 7 2 (some [wContact]) wNotifier 3 =
      (.error .forbidden, wStore) ∧
    UserRef.refId wAlertWithLedger.userId = 1 ∧
    notifyContactsRoute wStore 7 1 none wNotifier 3 =
      (.error .noContacts, wStore) ∧
    notifyContactsRoute wStore 7 1 (some []) wNotifier 3 =
      (.error .noContacts, wStore) := by
  refine ⟨rfl, by decide, ?_, rfl, ?_, ?_⟩
  · exact claim_C5_notify_contacts_guards.2.1 wStore 7 wAlertWithLedger 2
      (some [wContact]) wNotifier 3 rfl (by decide)
  · exact claim_C5_notify_contacts_guards.2.2.1 wStore 7 wAlertWithLedger 1
      wNotifier 3 rfl rfl
  · exact claim_C5_notify_contacts_guards.2.2.2 wStore 7 wAlertWithLedger 1
      wNotifier 3 rfl rfl

/-! ## Ledger-overwrite lemmas and claims C2, C1 -/

theorem response_of_mem_map_toLedgerEntry {now : Nat}
    {rs : List NotificationResult} {e : LedgerEntry}
    (he : e ∈ rs.map (toLedgerEntry now)) : e.response = .pending := by
  obtain ⟨x, _, rfl⟩ := List.mem_map.mp he
  rfl

theorem fanOut_take (notifier : String → SmsOutcome) (k : Nat)
    (us : List UserDoc) :
    fanOut notifier ((us.take k).map UserDoc.toRecipient) =
      (fanOut notifier (us.map UserDoc.toRecipient)).take k := by
  rw [fanOut_eq_map, fanOut_eq_map, List.map_take, List.map_take]

/-- C2: after any successful fan-out, the alert's ledger is replaced
wholesale by the freshly built one — its value is the image of the new
fan-out alone, so no prior entry survives — its length equals the size of
the recipient set at that invocation (broadcast mode: the other active
users; targeted mode: the saved emergency contacts), and every new entry
has response `pending`. -/
theorem claim_C2_ledger_overwrite_invariant :
    (∀ (user : SosUser) (inp : CreateInput) (env : NotificationEnv)
        (now : Nat) (users : List UserDoc),
      validateCreate inp = true → env.users = .ok users →
      env.fanOutFault = none → env.ledgerSaveOk = true →
      (createAlert user inp env now).2 =
        some { newAlertFromInput user inp with
          notifiedContacts :=
            (fanOut env.notifier (users.map UserDoc.toRecipient)).map
              (toLedgerEntry now) } ∧
      ((fanOut env.notifier (users.map UserDoc.toRecipient)).map
          (toLedgerEntry now)).length = users.length ∧
      (∀ e ∈ (fanOut env.notifier (users.map UserDoc.toRecipient)).map
          (toLedgerEntry now), e.response = .pending)) ∧
    (∀ (a : Alert) (requester : Nat) (contacts : List EmergencyContact)
        (notifier : String → SmsOutcome) (now : Nat),
      UserRef.refId a.userId = requester → contacts ≠ [] →
      notifyContacts (some a) requester (some contacts) notifier now =
        .ok ({ a with notifiedContacts :=
                 ((fanOut notifier (contacts.map EmergencyContact.toRecipient)).map
                   (toLedgerEntry now)) },
             fanOut notifier (contacts.map EmergencyContact.toRecipient)) ∧
      ((fanOut notifier (contacts.map EmergencyContact.toRecipient)).map
          (toLedgerEntry now)).length = contacts.length ∧
      (∀ e ∈ (fanOut notifier (contacts.map EmergencyContact.toRecipient)).map
          (toLedgerEntry now), e.response = .pending)) := by
  constructor
  · intro user inp env now users hv hu hf hs
    refine ⟨?_, ?_, fun e he => response_of_mem_map_toLedgerEntry he⟩
    · rcases users with _ | ⟨u0, urest⟩
      · simp [createAlert, hv, hu, fanOut, newAlertFromInput]
      · simp [createAlert, hv, hu, hf, hs]
    · simp [fanOut_eq_map]
  · intro a requester contacts notifier now he hne
    refine ⟨?_, ?_, fun e he2 => response_of_mem_map_toLedgerEntry he2⟩
    · simp only [notifyContacts]
      rw [if_neg (by simp [he]), if_neg (by simp [hne])]
    · simp [fanOut_eq_map]

/-- Witness for C2: creation among one other active user with a fault-free
environment, and a targeted notify by the creator with one saved
contact. -/
theorem claim_C2_witness :
    validateCreate wInp = true ∧ wEnv.users = .ok [wDoc] ∧
    wEnv.fanOutFault = none ∧ wEnv.ledgerSaveOk = true ∧
    (createAlert wUser wInp wEnv 3).2 =
      some { newAlertFromInput wUser wInp with
        notifiedContacts :=
          (fanOut wEnv.notifier ([wDoc].map UserDoc.toRecipient)).map
            (toLedgerEntry 3) } ∧
    ([wContact] : List EmergencyContact) ≠ [] ∧
    UserRef.refId wAlert.userId = 1 ∧
    notifyContacts (some wAlert) 1 (some [wContact]) wNotifier 3 =
      .ok ({ wAlert with notifiedContacts :=
               ((fanOut wNotifier ([wContact].map EmergencyContact.toRecipient)).map
                 (toLedgerEntry 3)) },
           fanOut wNotifier ([wContact].map EmergencyContact.toRecipient)) := by
  refine ⟨by decide, rfl, rfl, rfl, ?_, by decide, rfl, ?_⟩
  · exact (claim_C2_ledger_overwrite_invariant.1 wUser wInp wEnv 3 [wDoc]
      (by decide) rfl rfl rfl).1
  · exact (claim_C2_ledger_overwrite_invariant.2 wAlert 1 [wContact]
      wNotifier 3 rfl (by decide)).1

/-- C1: with valid inputs, alert creation reports success no matter what
the notification phase does — recipient-resolution rejection, an
unexpected fault mid-fan-out, or a ledger-save rejection are all
swallowed — and the response carries the created alert together with the
accumulated (possibly empty, possibly partial) notification ledger, a
prefix of the full broadcast fan-out. -/
theorem claim_C1_create_alert_fault_tolerance (user : SosUser)
    (inp : CreateInput) (env : NotificationEnv) (now : Nat)
    (h : validateCreate inp = true) :
    ∃ r : CreateResponse, (createAlert user inp env now).1 = .ok r ∧
      r.alert.userId = .raw user.id ∧
      r.alert.status = .active ∧
      r.alert.latitude = inp.latitude ∧
      r.alert.longitude = inp.longitude ∧
      r.notifications <+: fanOut env.notifier (broadcastRecipients env) := by
  rcases henv : env.users with err | users
  · refine ⟨⟨newAlertFromInput user inp, []⟩, ?_, rfl, rfl, rfl, rfl,
      List.nil_prefix⟩
    simp [createAlert, h, henv]
  · rcases users with _ | ⟨u0, urest⟩
    · refine ⟨⟨newAlertFromInput user inp, []⟩, ?_, rfl, rfl, rfl, rfl,
        List.nil_prefix⟩
      simp [createAlert, h, henv]
    · have hb : broadcastRecipients env = (u0 :: urest).map UserDoc.toRecipient := by
        simp [broadcastRecipients, henv]
      rcases hf : env.fanOutFault with _ | k
      · refine ⟨⟨{ newAlertFromInput user inp with
            notifiedContacts :=
              ((fanOut env.notifier ((u0 :: urest).map UserDoc.toRecipient)).map
                (toLedgerEntry now)) },
            fanOut env.notifier ((u0 :: urest).map UserDoc.toRecipient)⟩,
          ?_, rfl, rfl, rfl, rfl, ?_⟩
        · simp [createAlert, h, henv, hf]
        · rw [hb]
      · refine ⟨⟨newAlertFromInput user inp,
          fanOut env.notifier (((u0 :: urest).take k).map UserDoc.toRecipient)⟩,
          ?_, rfl, rfl, rfl, rfl, ?_⟩
        · simp [createAlert, h, henv, hf]
        · rw [fanOut_take, hb]
          exact List.take_prefix k _

/-- Witness for C1: a concrete valid creation whose fan-out faults after
one of two recipients. -/
theorem claim_C1_witness :
    validateCreate wInp = true ∧
    ∃ r : CreateResponse, (createAlert wUser wInp wEnvFault 3).1 = .ok r ∧
      r.alert.userId = .raw wUser.id ∧
      r.alert.status = .active ∧
      r.alert.latitude = wInp.latitude ∧
      r.alert.longitude = wInp.longitude ∧
      r.notifications <+: fanOut wEnvFault.notifier (broadcastRecipients wEnvFault) :=
  ⟨by decide,
    claim_C1_create_alert_fault_tolerance wUser wInp wEnvFault 3 (by decide)⟩

end VoiceOfHer
